import Mathlib

/-!
Shallow embedding of the schema-driven validation and query-construction core
of the flight-management CLI (`src/main.py`).

Conventions of the embedding:
* A stored cell is `Option String`; `some s` is the canonical textual rendering
  of the SQLite value (all comparisons performed by the Python code go through
  `str(...)`, so the textual rendering is exactly what the code observes).
  `none` is SQL NULL.
* Python `str.strip()` is `pyStrip`, `str.split("=")` is `pySplitEq`,
  `str.isdigit()` is `pyIsDigit`, the date regexp is `isDateFormat`,
  `str(x)` applied to a possibly-NULL cell is `cellStr` (Python renders
  `None` as `"None"`).
* Schema metadata is the literal output of `PRAGMA table_info` /
  `PRAGMA foreign_key_list` on the three `CREATE TABLE` statements of
  `initDB` (checked against SQLite: primary-key columns report
  `notnull = 0` unless declared `NOT NULL`, and `departure_date` reports
  default value `'2022-01-01'` including the quotes).
* Validation routines return `Option VErr`: `none` is success, `some e`
  identifies which check failed and on which column.  The Python code
  prints the specific diagnostic inside `validateField` and returns a
  message naming the failing attribute from `validateData` /
  `validateUpdateData`; the `VErr` value carries both pieces of
  information (the check and the column name).
-/

/-- A cell of a stored row: `none` is SQL NULL, `some s` the canonical text. -/
abbrev Cell := Option String

/-- A stored row, cells in declaration order of the table's columns. -/
abbrev Row := List Cell

/-- One entry of `PRAGMA table_info(t)`: `(cid, name, type, notnull, dflt_value, pk)`. -/
structure Attr where
  cid : Nat
  name : String
  datatype : String
  notnull : Bool
  dflt : Option String
  pk : Bool
deriving Repr, DecidableEq

/-- Fallback attribute used with `List.getD` (never selected on in-range indices). -/
def dA : Attr := ⟨0, "", "", false, none, false⟩

/-- One entry of `PRAGMA foreign_key_list(t)`: the code reads index 2 (target
table), index 3 (source column) and index 4 (target column). -/
structure FK where
  toTable : String
  fromCol : String
  toCol : String
deriving Repr, DecidableEq

/-- `PRAGMA table_info` for the three tables created by `initDB`. -/
def tableInfo : String → List Attr
  | "aircraft" =>
      [⟨0, "aircraft_id", "INTEGER", false, none, true⟩,
       ⟨1, "age", "INTEGER", true, none, false⟩,
       ⟨2, "capacity", "INTEGER", true, none, false⟩]
  | "pilot" =>
      [⟨0, "staff_id", "INTEGER", false, none, true⟩,
       ⟨1, "last_name", "TEXT", true, none, false⟩,
       ⟨2, "first_name", "TEXT", true, none, false⟩]
  | "flight" =>
      [⟨0, "flight_id", "TEXT", false, none, true⟩,
       ⟨1, "start_airport", "TEXT", true, none, false⟩,
       ⟨2, "destination_airport", "TEXT", true, none, false⟩,
       ⟨3, "departure_date", "TEXT", true, some "'2022-01-01'", false⟩,
       ⟨4, "aircraft_id", "INTEGER", true, none, false⟩,
       ⟨5, "pilot_1", "INTEGER", true, none, false⟩,
       ⟨6, "pilot_2", "INTEGER", false, none, false⟩]
  | _ => []

/-- `PRAGMA foreign_key_list` for the three tables (order as reported by SQLite). -/
def foreignKeyList : String → List FK
  | "flight" =>
      [⟨"pilot", "pilot_2", "staff_id"⟩,
       ⟨"pilot", "pilot_1", "staff_id"⟩,
       ⟨"aircraft", "aircraft_id", "aircraft_id"⟩]
  | _ => []

/-- `Main.table_names`. -/
def tableNames : List String := ["flight", "aircraft", "pilot"]

/-- Database state: contents of the three tables. -/
structure DB where
  flight : List Row
  aircraft : List Row
  pilot : List Row
deriving Repr, DecidableEq

def getTable (db : DB) : String → List Row
  | "flight" => db.flight
  | "aircraft" => db.aircraft
  | "pilot" => db.pilot
  | _ => []

def setTable (db : DB) (t : String) (rows : List Row) : DB :=
  match t with
  | "flight" => { db with flight := rows }
  | "aircraft" => { db with aircraft := rows }
  | "pilot" => { db with pilot := rows }
  | _ => db

/-- Python `str(x)` on a fetched cell: `str(None) = "None"`. -/
def cellStr : Cell → String
  | none => "None"
  | some s => s

/-- Index of a column name in a table's declared column list. -/
def colIndex (t col : String) : Option Nat :=
  ((tableInfo t).map (·.name)).indexOf? col

/-- `colIndex` with default 0 (used after validation has ensured presence). -/
def colIndexD (t col : String) : Nat := (colIndex t col).getD 0

/-- `SELECT col FROM t` followed by Python `str` of each fetched value
(the pattern used by `validateField`, `validateUpdateData` and friends). -/
def selectCol (db : DB) (t col : String) : List String :=
  match colIndex t col with
  | some i => (getTable db t).map (fun r => cellStr (r.getD i none))
  | none => []

/-- SQL equality `col = v` of a stored cell against a bound text parameter
(NULL compares false; INTEGER affinity makes the canonical renderings agree). -/
def whereEq (c : Cell) (v : String) : Bool := c == some v

/-- Python `str.strip()`: drop whitespace from both ends. -/
def pyStrip (s : String) : String :=
  ⟨((s.data.dropWhile Char.isWhitespace).reverse.dropWhile Char.isWhitespace).reverse⟩

/-- Split a character list at every occurrence of `c` (Python `split` on a
one-character separator). -/
def splitOnChar (c : Char) : List Char → List (List Char)
  | [] => [[]]
  | x :: xs =>
      let r := splitOnChar c xs
      if x = c then [] :: r
      else
        match r with
        | y :: ys => (x :: y) :: ys
        | [] => [[x]]

/-- Python `s.split("=")`. -/
def pySplitEq (s : String) : List String :=
  (splitOnChar '=' s.data).map (fun l => ⟨l⟩)

/-- Python `s.isdigit()` (ASCII digits; non-empty). -/
def pyIsDigit (s : String) : Bool :=
  !s.data.isEmpty && s.data.all Char.isDigit

/-- The code's date check `re.search("^[0-9]\x7b4\x7d-[0-9]\x7b2\x7d-[0-9]\x7b2\x7d$", data)`:
exactly ten characters, digits except for dashes at positions 4 and 7. -/
def isDateFormat (s : String) : Bool :=
  match s.data with
  | [a, b, c, d, h1, e, f, h2, g, i] =>
      [a, b, c, d, e, f, g, i].all Char.isDigit && h1 = '-' && h2 = '-'
  | _ => false

/-- Python `data == None or data == ""`. -/
def isEmptyVal (v : Cell) : Bool := v == none || v == some ""

/-- Validation outcomes, one constructor per check of the error taxonomy.
The string argument names the offending column (or, for
`MalformedAssignment` / `UnknownEntity` / `UnknownAttribute`, echoes the
offending input, as the code's messages do). -/
inductive VErr where
  | ArityMismatch
  | MissingRequiredField (col : String)
  | DuplicateKey (col : String)
  | DanglingForeignKey (col : String)
  | InvalidDateFormat (col : String)
  | InvalidIntegerFormat (col : String)
  | UnknownEntity (v : String)
  | MalformedAssignment (arg : String)
  | ImmutableKeyError
  | UnknownAttribute (nm : String)
  | ConstraintViolation
  | ReferencedByOtherEntity
deriving Repr, DecidableEq

/-- The date / integer format checks at the tail of `validateField`
(`default == "'2022-01-01'"` signals date semantics; `elif` skips the
integer check for date columns). -/
def validateFieldFormat (s : String) (attr : Attr) : Option VErr :=
  if attr.dflt = some "'2022-01-01'" then
    if !isDateFormat s then some (.InvalidDateFormat attr.name) else none
  else if attr.datatype = "INTEGER" then
    if !pyIsDigit s then some (.InvalidIntegerFormat attr.name) else none
  else none

/-- The part of `validateField` reached when the value is non-empty:
primary-key uniqueness, then foreign-key existence (the `try` around
`fk_from_names.index(name)` makes a missing entry skip the check),
then the format checks. -/
def validateFieldNonNull (data : Cell) (attr : Attr) (t : String) (db : DB) :
    Option VErr :=
  let s := data.getD ""
  if attr.pk = true ∧ s ∈ selectCol db t attr.name then
    some (.DuplicateKey attr.name)
  else
    match (foreignKeyList t).find? (fun fk => fk.fromCol == attr.name) with
    | some fk =>
        if s ∉ selectCol db fk.toTable fk.toCol then
          some (.DanglingForeignKey attr.name)
        else validateFieldFormat s attr
    | none => validateFieldFormat s attr

/-- `Main.validateField`: `none` is the code's `True`, `some e` its `False`
together with the diagnostic it prints. -/
def validateField (data : Cell) (attr : Attr) (t : String) (db : DB) :
    Option VErr :=
  if attr.notnull then
    if isEmptyVal data then some (.MissingRequiredField attr.name)
    else validateFieldNonNull data attr t db
  else
    if isEmptyVal data then none
    else validateFieldNonNull data attr t db

/-- The loop of `Main.validateData`: fields checked in declaration order,
returning at the first failure. -/
def validateFields (db : DB) (t : String) : List Cell → List Attr → Option VErr
  | d :: ds, a :: as_ =>
      match validateField d a t db with
      | some e => some e
      | none => validateFields db t ds as_
  | _, _ => none

/-- `Main.validateData`: arity check against `PRAGMA table_info`, then the
per-field loop. -/
def validateData (data : List Cell) (t : String) (db : DB) : Option VErr :=
  let attributes := tableInfo t
  if data.length ≠ attributes.length then some .ArityMismatch
  else validateFields db t data attributes

/-- The primary-key column names hardcoded in `update_dict` (agreeing with
`getPKName` on the three tables). -/
def updatePk : String → String
  | "flight" => "flight_id"
  | "pilot" => "staff_id"
  | "aircraft" => "aircraft_id"
  | _ => ""

/-- `Main.getPKName`: first attribute with the `pk` flag (the code returns
`None` when there is none; modelled as `""`, unreachable for the three tables). -/
def getPKName (t : String) : String :=
  match (tableInfo t).find? (·.pk) with
  | some a => a.name
  | none => ""

/-- The per-assignment body of the loop in `Main.validateUpdateData`:
split on `=` into exactly two pieces, reject the primary-key column,
require a declared attribute, then delegate the value to `validateField`.
The split pieces are taken verbatim (the code does not strip them). -/
def assignmentCheck (db : DB) (t pk : String) (attributes : List Attr)
    (arg : String) : Option VErr :=
  let sp := pySplitEq (pyStrip arg)
  if sp.length ≠ 2 then some (.MalformedAssignment arg)
  else
    let n := sp.getD 0 ""
    let v := sp.getD 1 ""
    if n = pk then some .ImmutableKeyError
    else
      match (attributes.map (·.name)).indexOf? n with
      | none => some (.UnknownAttribute n)
      | some i => validateField (some v) (attributes.getD i dA) t db

/-- The assignment loop of `Main.validateUpdateData`, first failure wins. -/
def validateUpdateArgs (db : DB) (t pk : String) (attributes : List Attr) :
    List String → Option VErr
  | [] => none
  | arg :: rest =>
      match assignmentCheck db t pk attributes arg with
      | some e => some e
      | none => validateUpdateArgs db t pk attributes rest

/-- `Main.validateUpdateData`: at least two arguments, the identifier must be
an existing primary-key value (via `str` of `SELECT pk FROM t`), then the
per-assignment loop. -/
def validateUpdateData (data : List String) (t : String) (db : DB) :
    Option VErr :=
  if data.length < 2 then some .ArityMismatch
  else if (data.getD 0 "") ∉ selectCol db t (updatePk t) then
    some (.UnknownEntity (data.getD 0 ""))
  else validateUpdateArgs db t (updatePk t) (tableInfo t) (data.drop 1)

/-- `Main.validateValueInPK`: `SELECT pk FROM t WHERE pk = ?` with the value
bound as a parameter; error when no row matches. -/
def validateValueInPK (db : DB) (t pk v : String) : Option VErr :=
  if (getTable db t).any (fun r => whereEq (r.getD (colIndexD t pk) none) v) then
    none
  else some (.UnknownEntity v)

/-- A parameterized statement handed to the persistence engine:
the SQL text and the bound parameters, in order. -/
structure Stmt where
  sql : String
  params : List Cell
deriving Repr, DecidableEq

/-- Python `sep.join(l)`. -/
def pyJoin (sep : String) : List String → String
  | [] => ""
  | [x] => x
  | x :: xs => x ++ sep ++ pyJoin sep xs

/-- The fixed INSERT statement text of `insert_dict` for each table. -/
def insertQuery : String → String
  | "flight" => "INSERT INTO flight (flight_id, start_airport, destination_airport, departure_date, aircraft_id, pilot_1, pilot_2) VALUES (?, ?, ?, ?, ?, ?, ?)"
  | "pilot" => "INSERT INTO pilot (staff_id, last_name, first_name) VALUES (?, ?, ?)"
  | "aircraft" => "INSERT INTO aircraft (aircraft_id, age, capacity) VALUES (?, ?, ?)"
  | _ => ""

/-- The UPDATE statement text: `update_dict` template with
`conds_placeholder` replaced by the comma-joined conditions. -/
def updateQuery (t : String) (conds : List String) : String :=
  "UPDATE " ++ t ++ " SET " ++ pyJoin "," conds ++ " WHERE " ++ updatePk t ++ "=?"

/-- The DELETE statement text built in `Main.delete`. -/
def deleteQuery (t pk : String) : String :=
  "DELETE FROM " ++ t ++ " WHERE " ++ pk ++ " = ?"

/-- The SET-clause fragment `Main.update` builds from one assignment string:
`_split[0].strip() + "=?"`. -/
def updateArgCond (arg : String) : String :=
  pyStrip ((pySplitEq arg).getD 0 "") ++ "=?"

/-- The bound parameter `Main.update` builds from one assignment string:
the stripped value when non-empty (truthy), otherwise NULL. -/
def updateArgParam (arg : String) : Cell :=
  if pyStrip ((pySplitEq arg).getD 1 "") ≠ "" then
    some (pyStrip ((pySplitEq arg).getD 1 "")) else none

/-!
Persistence-engine model.  The engine (SQLite, an external collaborator per
the specification) executes parameterized statements; writes enforce NOT
NULL, primary-key uniqueness and (with `PRAGMA foreign_keys = ON`, set by
`initDB`) foreign-key existence, failing the single in-flight statement
atomically on violation.
-/

/-- Modelled engine constraint check for inserting one row: NOT NULL on
declared-NOT-NULL columns, uniqueness of the primary-key value, existence
of every non-NULL foreign-key value in the referenced column. -/
def engineRowConflict (db : DB) (t : String) (row : Row) : Bool :=
  let attrs := tableInfo t
  (List.range attrs.length).any (fun i =>
    let a := attrs.getD i dA
    let c := row.getD i none
    (a.notnull && c == none) ||
    (a.pk && match c with
      | some s => decide (s ∈ selectCol db t a.name)
      | none => false)) ||
  (foreignKeyList t).any (fun fk =>
    match colIndex t fk.fromCol with
    | some i =>
        match row.getD i none with
        | some s => decide (s ∉ selectCol db fk.toTable fk.toCol)
        | none => false
    | none => false)

/-- Append a row to a table. -/
def appendRow (db : DB) (t : String) (row : Row) : DB :=
  setTable db t (getTable db t ++ [row])

/-- Modelled `cursor.executemany` for INSERT: rows inserted in order; a
constraint violation aborts the failing statement only, leaving the rows
already inserted in the connection's open transaction (SQLite ON CONFLICT
ABORT).  Returns the resulting uncommitted state and whether it failed. -/
def engineExecuteMany (db : DB) (t : String) : List Row → DB × Bool
  | [] => (db, false)
  | r :: rs =>
      if engineRowConflict db t r then (db, true)
      else engineExecuteMany (appendRow db t r) t rs

/-- Connection state: `committed` is what the database file holds, `current`
additionally contains the uncommitted changes of the open transaction
(`conn.commit()` publishes `current`; the code never calls `rollback`). -/
structure Session where
  committed : DB
  current : DB
deriving Repr, DecidableEq

/-- Is the row with primary-key value `v` of table `t` referenced by some
foreign key of another table?  (Every FK of this schema targets the
referenced table's primary key.) -/
def isReferenced (db : DB) (t v : String) : Bool :=
  tableNames.any (fun u =>
    (foreignKeyList u).any (fun fk =>
      fk.toTable == t &&
      (getTable db u).any (fun r =>
        match colIndex u fk.fromCol with
        | some i =>
            match r.getD i none with
            | some s => s == v
            | none => false
        | none => false)))

/-- `Main.insert` after the prompts: validate every row of the batch (against
the pre-batch state), then `executemany` the fixed per-table statement and
commit on success.  On a validation error nothing is issued; on an engine
error the open transaction keeps the rows already inserted (no rollback)
and the commit is skipped. -/
def insertOp (s : Session) (t : String) (rows : List Row) :
    Session × Option VErr × List Stmt :=
  match rows.findSome? (fun r => validateData r t s.current) with
  | some e => (s, some e, [])
  | none =>
      let stmts := rows.map (fun r => ⟨insertQuery t, r⟩)
      match engineExecuteMany s.current t rows with
      | (db', false) => (⟨db', db'⟩, none, stmts)
      | (db', true) => ({ s with current := db' }, some .ConstraintViolation, stmts)

/-- `Main.update` after the prompts: validate, then build the SET clause from
the assignment names, bind the values (empty value bound as NULL) with the
identifier as trailing parameter, execute and commit. -/
def updateOp (s : Session) (t : String) (data : List String) :
    Session × Option VErr × List Stmt :=
  match validateUpdateData data t s.current with
  | some e => (s, some e, [])
  | none =>
      let args := data.drop 1
      let conds := args.map updateArgCond
      let params := args.map updateArgParam
      let q := updateQuery t conds
      let asgs := args.map (fun arg =>
        (colIndexD t (pyStrip ((pySplitEq arg).getD 0 "")), updateArgParam arg))
      let pkIdx := colIndexD t (updatePk t)
      let db' := setTable s.current t ((getTable s.current t).map (fun r =>
        if whereEq (r.getD pkIdx none) (data.getD 0 "") then
          asgs.foldl (fun row iv => row.set iv.1 iv.2) r
        else r))
      (⟨db', db'⟩, none, [⟨q, params ++ [some (data.getD 0 "")]⟩])

/-- `Main.delete` after the prompts: `validateValueInPK` gate, then the
DELETE statement.  With foreign keys ON the engine fails the statement
atomically when the row is still referenced; the code maps that failure to
its referenced-by message and does not commit (nothing changed). -/
def deleteOp (s : Session) (t v : String) :
    Session × Option VErr × List Stmt :=
  let pk := getPKName t
  match validateValueInPK s.current t pk v with
  | some e => (s, some e, [])
  | none =>
      let stmt : Stmt := ⟨deleteQuery t pk, [some v]⟩
      if isReferenced s.current t v then
        (s, some .ReferencedByOtherEntity, [stmt])
      else
        let pkIdx := colIndexD t pk
        let db' := setTable s.current t
          ((getTable s.current t).filter (fun r => !whereEq (r.getD pkIdx none) v))
        (⟨db', db'⟩, none, [stmt])

/-- One entry of `search_dict`: the filter columns and the table. -/
structure SearchSpec where
  args : List String
  table : String
deriving Repr, DecidableEq

/-- `search_dict` of `Main.search`. -/
def searchDict : String → Option SearchSpec
  | "1" => some ⟨["flight_id"], "flight"⟩
  | "2" => some ⟨["destination_airport"], "flight"⟩
  | "3" => some ⟨["departure_date"], "flight"⟩
  | "4" => some ⟨["departure_date", "destination_airport"], "flight"⟩
  | "5" => some ⟨["aircraft_id"], "aircraft"⟩
  | "6" => some ⟨["age"], "aircraft"⟩
  | "7" => some ⟨["staff_id"], "pilot"⟩
  | "8" => some ⟨["last_name"], "pilot"⟩
  | "9" => some ⟨["first_name"], "pilot"⟩
  | "10" => some ⟨["last_name", "first_name"], "pilot"⟩
  | _ => none

/-- The SELECT text `Main.search` builds: named placeholders, one per filter
column, joined with AND. -/
def searchQuery (spec : SearchSpec) : String :=
  "SELECT * FROM " ++ spec.table ++ " WHERE " ++
    pyJoin " AND " (spec.args.map (fun a => a ++ " = :" ++ a))

/-- The rows the engine returns for the search SELECT: equality of each
filter column against its bound value. -/
def searchRows (db : DB) (spec : SearchSpec) (values : List String) : List Row :=
  (getTable db spec.table).filter (fun r =>
    (spec.args.zip values).all (fun av =>
      whereEq (r.getD (colIndexD spec.table av.1) none) av.2))

/-- `Main.search` after the prompts: read-only, issues the built SELECT with
the user values bound (in filter-column order). -/
def searchOp (db : DB) (spec : SearchSpec) (values : List String) :
    List Row × List Stmt :=
  (searchRows db spec values, [⟨searchQuery spec, values.map some⟩])

/-- The data seeded by `initDB` into `pilot` (canonical renderings of the
stored values). -/
def pilotSeed : List Row :=
  [[some "1", some "beckham", some "david"],
   [some "2", some "kane", some "harry"]]

/-- The data seeded by `initDB` into `aircraft`. -/
def aircraftSeed : List Row :=
  [[some "1", some "5", some "420"],
   [some "2", some "9", some "110"]]

/-- Database state right after `initDB` on a fresh file. -/
def db0 : DB := ⟨[], aircraftSeed, pilotSeed⟩

/-- Session right after `initDB` (everything committed). -/
def s0 : Session := ⟨db0, db0⟩

/-! ## Helper lemmas about the embedded primitives -/

theorem splitOnChar_ne_nil (c : Char) (l : List Char) : splitOnChar c l ≠ [] := by
  cases l with
  | nil => simp [splitOnChar]
  | cons x xs =>
      simp only [splitOnChar]
      split
      · simp
      · split <;> simp_all

theorem splitOnChar_of_not_mem (c : Char) (l : List Char) (h : c ∉ l) :
    splitOnChar c l = [l] := by
  induction l with
  | nil => rfl
  | cons x xs ih =>
      simp only [List.mem_cons, not_or] at h
      have hxc : ¬ x = c := fun he => h.1 he.symm
      simp only [splitOnChar, ih h.2]
      rw [if_neg hxc]

theorem splitOnChar_sep (c : Char) (xs ys : List Char)
    (hx : c ∉ xs) (hy : c ∉ ys) :
    splitOnChar c (xs ++ c :: ys) = [xs, ys] := by
  induction xs with
  | nil => simp [splitOnChar, splitOnChar_of_not_mem c ys hy]
  | cons a as ih =>
      simp only [List.mem_cons, not_or] at hx
      have hac : ¬ a = c := fun he => hx.1 he.symm
      have ih2 : splitOnChar c (List.append as (c :: ys)) = [as, ys] := ih hx.2
      simp only [List.cons_append, splitOnChar, ih2]
      rw [if_neg hac]

theorem length_splitOnChar (c : Char) (l : List Char) :
    (splitOnChar c l).length = l.count c + 1 := by
  induction l with
  | nil => rfl
  | cons x xs ih =>
      simp only [splitOnChar, List.count_cons]
      split
      · next hxc =>
          simp [List.length_cons, ih, hxc]
      · next hxc =>
          have hne := splitOnChar_ne_nil c xs
          cases hr : splitOnChar c xs with
          | nil => exact absurd hr hne
          | cons y ys =>
              have : (x == c) = false := by
                simp [hxc]
              simp [hr, this] at ih ⊢
              omega

theorem not_mem_of_mem_splitOnChar (c : Char) :
    ∀ (l : List Char) (p : List Char), p ∈ splitOnChar c l → c ∉ p := by
  intro l
  induction l with
  | nil =>
      intro p hp
      simp [splitOnChar] at hp
      simp [hp]
  | cons x xs ih =>
      intro p hp
      simp only [splitOnChar] at hp
      by_cases hxc : x = c
      · rw [if_pos hxc] at hp
        rcases List.mem_cons.1 hp with h | h
        · simp [h]
        · exact ih p h
      · rw [if_neg hxc] at hp
        have hne := splitOnChar_ne_nil c xs
        cases hr : splitOnChar c xs with
        | nil => exact absurd hr hne
        | cons y ys =>
            rw [hr] at hp
            rcases List.mem_cons.1 hp with h | h
            · subst h
              intro hcm
              rcases List.mem_cons.1 hcm with h | h
              · exact hxc h.symm
              · exact ih y (hr ▸ List.mem_cons_self y ys) h
            · exact ih p (hr ▸ List.mem_cons.2 (Or.inr h))

theorem count_dropWhile_of_not_pred {p : Char → Bool} {c : Char}
    (hc : p c = false) :
    ∀ l : List Char, (l.dropWhile p).count c = l.count c := by
  intro l
  induction l with
  | nil => rfl
  | cons x xs ih =>
      by_cases hx : p x = true
      · have hxne : x ≠ c := by
          intro he
          subst he
          rw [hx] at hc
          cases hc
        have hxc : (x == c) = false := beq_eq_false_iff_ne.2 hxne
        rw [List.dropWhile_cons, if_pos hx, ih, List.count_cons, hxc]
        simp
      · simp only [Bool.not_eq_true] at hx
        rw [List.dropWhile_cons, if_neg (by simp [hx])]

theorem count_pyStrip (c : Char) (hc : c.isWhitespace = false) (s : String) :
    (pyStrip s).data.count c = s.data.count c := by
  simp only [pyStrip]
  rw [List.count_reverse, count_dropWhile_of_not_pred hc,
    List.count_reverse, count_dropWhile_of_not_pred hc]

theorem mem_dropWhile_subset {p : Char → Bool} :
    ∀ l : List Char, ∀ x ∈ l.dropWhile p, x ∈ l := by
  intro l
  induction l with
  | nil => simp
  | cons a as ih =>
      intro x hx
      by_cases ha : p a = true
      · rw [List.dropWhile_cons, if_pos ha] at hx
        exact List.mem_cons.2 (Or.inr (ih x hx))
      · simp only [Bool.not_eq_true] at ha
        rw [List.dropWhile_cons, if_neg (by simp [ha])] at hx
        exact hx

theorem mem_pyStrip_subset (s : String) :
    ∀ x ∈ (pyStrip s).data, x ∈ s.data := by
  intro x hx
  simp only [pyStrip] at hx
  rw [List.mem_reverse] at hx
  have := mem_dropWhile_subset _ x hx
  rw [List.mem_reverse] at this
  exact mem_dropWhile_subset _ x this

theorem pySplitEq_length (s : String) :
    (pySplitEq s).length = s.data.count '=' + 1 := by
  simp [pySplitEq, length_splitOnChar]

theorem pySplitEq_sep (n v : String) (hn : '=' ∉ n.data) (hv : '=' ∉ v.data) :
    pySplitEq (n ++ "=" ++ v) = [n, v] := by
  have hdata : (n ++ "=" ++ v).data = n.data ++ '=' :: v.data := by
    rw [String.data_append, String.data_append]
    have heq : ("=" : String).data = ['='] := rfl
    rw [heq, List.append_assoc]
    rfl
  rw [pySplitEq, hdata, splitOnChar_sep '=' n.data v.data hn hv]
  rfl

/-! ## Lemmas about the record validators -/

theorem validateFields_none_iff (db : DB) (t : String) :
    ∀ (ds : List Cell) (as_ : List Attr),
      validateFields db t ds as_ = none ↔
        ∀ p ∈ ds.zip as_, validateField p.1 p.2 t db = none := by
  intro ds
  induction ds with
  | nil => intro as_; simp [validateFields]
  | cons d ds ih =>
      intro as_
      cases as_ with
      | nil => simp [validateFields]
      | cons a as_ =>
          simp only [List.zip_cons_cons, List.mem_cons]
          cases h : validateField d a t db with
          | some e =>
              simp only [validateFields, h]
              constructor
              · intro hc; exact absurd hc (by simp)
              · intro hall
                have := hall (d, a) (Or.inl rfl)
                rw [h] at this
                exact this
          | none =>
              simp only [validateFields, h, ih as_]
              constructor
              · intro hall p hp
                rcases hp with hp | hp
                · subst hp; exact h
                · exact hall p hp
              · intro hall p hp
                exact hall p (Or.inr hp)

theorem validateFields_first (db : DB) (t : String) (e : VErr) :
    ∀ (i : Nat) (ds : List Cell) (as_ : List Attr),
      i < ds.length → i < as_.length →
      (∀ j, j < i → validateField (ds.getD j none) (as_.getD j dA) t db = none) →
      validateField (ds.getD i none) (as_.getD i dA) t db = some e →
      validateFields db t ds as_ = some e := by
  intro i
  induction i with
  | zero =>
      intro ds as_ h1 h2 _ h4
      cases ds with
      | nil => simp at h1
      | cons d ds =>
          cases as_ with
          | nil => simp at h2
          | cons a as_ =>
              rw [List.getD_cons_zero, List.getD_cons_zero] at h4
              simp [validateFields, h4]
  | succ i ih =>
      intro ds as_ h1 h2 h3 h4
      cases ds with
      | nil => simp at h1
      | cons d ds =>
          cases as_ with
          | nil => simp at h2
          | cons a as_ =>
              have h0 := h3 0 (Nat.succ_pos i)
              rw [List.getD_cons_zero, List.getD_cons_zero] at h0
              rw [List.getD_cons_succ, List.getD_cons_succ] at h4
              simp only [validateFields, h0]
              exact ih ds as_ (Nat.lt_of_succ_lt_succ h1) (Nat.lt_of_succ_lt_succ h2)
                (fun j hj => by
                  have := h3 (j + 1) (Nat.succ_lt_succ hj)
                  rwa [List.getD_cons_succ, List.getD_cons_succ] at this)
                h4

/-- C1: for every table and row, insert validation (`validateData`) succeeds
iff the row length equals the number of declared columns and every field, in
declaration order, passes `validateField`; a length mismatch yields the
arity error; otherwise the reported error is that of the first failing
field, independent of any later field. -/
theorem claim1_insert_validation (db : DB) (t : String) (data : List Cell) :
    (validateData data t db = none ↔
      data.length = (tableInfo t).length ∧
        ∀ p ∈ data.zip (tableInfo t), validateField p.1 p.2 t db = none) ∧
    (data.length ≠ (tableInfo t).length →
      validateData data t db = some .ArityMismatch) ∧
    (∀ i e, data.length = (tableInfo t).length →
      (∀ j, j < i →
        validateField (data.getD j none) ((tableInfo t).getD j dA) t db = none) →
      validateField (data.getD i none) ((tableInfo t).getD i dA) t db = some e →
      i < data.length →
      validateData data t db = some e) := by
  refine ⟨?_, ?_, ?_⟩
  · constructor
    · intro h
      by_cases hl : data.length = (tableInfo t).length
      · refine ⟨hl, ?_⟩
        rw [validateData, if_neg (by simp [hl])] at h
        exact (validateFields_none_iff db t data (tableInfo t)).1 h
      · rw [validateData, if_pos hl] at h
        cases h
    · rintro ⟨hl, hall⟩
      rw [validateData, if_neg (by simp [hl])]
      exact (validateFields_none_iff db t data (tableInfo t)).2 hall
  · intro hl
    rw [validateData, if_pos hl]
  · intro i e hl h3 h4 h5
    rw [validateData, if_neg (by simp [hl])]
    exact validateFields_first db t e i data (tableInfo t) h5 (hl ▸ h5) h3 h4

theorem claim1_witness :
    validateData [some "9"] "pilot" db0 = some VErr.ArityMismatch :=
  (claim1_insert_validation db0 "pilot" [some "9"]).2.1 (by decide)

/-- C4: `validateField` applies its checks in a fixed precedence and returns
the outcome of the first applicable one: empty value on a NOT NULL column
fails as missing-required-field; empty value on a nullable column succeeds
with no further checks; then primary-key uniqueness, foreign-key existence,
the date-format check for the column carrying the date default marker, and
the all-digits check for INTEGER columns. -/
theorem claim4_field_precedence (db : DB) (t : String) (a : Attr) (v : Cell) :
    (isEmptyVal v = true → a.notnull = true →
      validateField v a t db = some (.MissingRequiredField a.name)) ∧
    (isEmptyVal v = true → a.notnull = false →
      validateField v a t db = none) ∧
    (isEmptyVal v = false → a.pk = true → v.getD "" ∈ selectCol db t a.name →
      validateField v a t db = some (.DuplicateKey a.name)) ∧
    (isEmptyVal v = false → ¬(a.pk = true ∧ v.getD "" ∈ selectCol db t a.name) →
      ∀ fk, (foreignKeyList t).find? (fun k => k.fromCol == a.name) = some fk →
        v.getD "" ∉ selectCol db fk.toTable fk.toCol →
        validateField v a t db = some (.DanglingForeignKey a.name)) ∧
    (isEmptyVal v = false → ¬(a.pk = true ∧ v.getD "" ∈ selectCol db t a.name) →
      (∀ fk, (foreignKeyList t).find? (fun k => k.fromCol == a.name) = some fk →
        v.getD "" ∈ selectCol db fk.toTable fk.toCol) →
      a.dflt = some "'2022-01-01'" → isDateFormat (v.getD "") = false →
      validateField v a t db = some (.InvalidDateFormat a.name)) ∧
    (isEmptyVal v = false → ¬(a.pk = true ∧ v.getD "" ∈ selectCol db t a.name) →
      (∀ fk, (foreignKeyList t).find? (fun k => k.fromCol == a.name) = some fk →
        v.getD "" ∈ selectCol db fk.toTable fk.toCol) →
      a.dflt ≠ some "'2022-01-01'" → a.datatype = "INTEGER" →
      pyIsDigit (v.getD "") = false →
      validateField v a t db = some (.InvalidIntegerFormat a.name)) := by
  have hval : ∀ (he : isEmptyVal v = false),
      validateField v a t db = validateFieldNonNull v a t db := by
    intro he
    rw [validateField]
    cases hn : a.notnull <;> simp [he]
  have hrest : isEmptyVal v = false →
      ¬(a.pk = true ∧ v.getD "" ∈ selectCol db t a.name) →
      (∀ fk, (foreignKeyList t).find? (fun k => k.fromCol == a.name) = some fk →
        v.getD "" ∈ selectCol db fk.toTable fk.toCol) →
      validateField v a t db = validateFieldFormat (v.getD "") a := by
    intro he hnpk hfkok
    rw [hval he, validateFieldNonNull]
    simp only [if_neg hnpk]
    split
    · next fk hfk => rw [if_neg (by simp [hfkok fk hfk])]
    · rfl
  refine ⟨?_, ?_, ?_, ?_, ?_, ?_⟩
  · intro he hn
    rw [validateField, if_pos hn, if_pos he]
  · intro he hn
    rw [validateField]
    simp [hn, he]
  · intro he hpk hmem
    rw [hval he, validateFieldNonNull]
    simp only [if_pos (And.intro hpk hmem)]
  · intro he hnpk fk hfk hnmem
    rw [hval he, validateFieldNonNull]
    simp only [if_neg hnpk, hfk]
    rw [if_pos hnmem]
  · intro he hnpk hfkok hdflt hdate
    rw [hrest he hnpk hfkok]
    rw [validateFieldFormat, if_pos hdflt, if_pos (by simp [hdate])]
  · intro he hnpk hfkok hdflt hty hdig
    rw [hrest he hnpk hfkok]
    rw [validateFieldFormat, if_neg hdflt, if_pos hty, if_pos (by simp [hdig])]

theorem claim4_witness :
    validateField (some "xy") ⟨1, "age", "INTEGER", true, none, false⟩
        "aircraft" db0 = some (VErr.InvalidIntegerFormat "age") :=
  (claim4_field_precedence db0 "aircraft" ⟨1, "age", "INTEGER", true, none, false⟩
      (some "xy")).2.2.2.2.2 (by decide) (by decide)
    (by intro fk hfk; simp [foreignKeyList] at hfk) (by decide) (by decide)
    (by decide)

theorem validateUpdateArgs_first (db : DB) (t pk : String) (attrs : List Attr)
    (e : VErr) :
    ∀ (i : Nat) (args : List String),
      i < args.length →
      (∀ j, j < i → assignmentCheck db t pk attrs (args.getD j "") = none) →
      assignmentCheck db t pk attrs (args.getD i "") = some e →
      validateUpdateArgs db t pk attrs args = some e := by
  intro i
  induction i with
  | zero =>
      intro args h1 _ h3
      cases args with
      | nil => simp at h1
      | cons a as_ =>
          rw [List.getD_cons_zero] at h3
          simp [validateUpdateArgs, h3]
  | succ i ih =>
      intro args h1 h2 h3
      cases args with
      | nil => simp at h1
      | cons a as_ =>
          have h0 := h2 0 (Nat.succ_pos i)
          rw [List.getD_cons_zero] at h0
          rw [List.getD_cons_succ] at h3
          simp only [validateUpdateArgs, h0]
          exact ih as_ (Nat.lt_of_succ_lt_succ h1)
            (fun j hj => by
              have := h2 (j + 1) (Nat.succ_lt_succ hj)
              rwa [List.getD_cons_succ] at this)
            h3

theorem validateUpdateArgs_all_none (db : DB) (t pk : String)
    (attrs : List Attr) :
    ∀ (args : List String), validateUpdateArgs db t pk attrs args = none →
      ∀ arg ∈ args, assignmentCheck db t pk attrs arg = none := by
  intro args
  induction args with
  | nil => intro _ arg h; cases h
  | cons a as_ ih =>
      intro h arg harg
      rcases List.mem_cons.1 harg with hq | hq
      · subst hq
        cases hc : assignmentCheck db t pk attrs arg with
        | none => rfl
        | some e => rw [validateUpdateArgs, hc] at h; cases h
      · cases hc : assignmentCheck db t pk attrs a with
        | none =>
            rw [validateUpdateArgs, hc] at h
            exact ih h arg hq
        | some e => rw [validateUpdateArgs, hc] at h; cases h

theorem validateUpdateArgs_ne_none (db : DB) (t pk : String)
    (attrs : List Attr) :
    ∀ (args : List String) (arg : String), arg ∈ args →
      assignmentCheck db t pk attrs arg ≠ none →
      validateUpdateArgs db t pk attrs args ≠ none := by
  intro args arg harg hne hall
  exact hne (validateUpdateArgs_all_none db t pk attrs args hall arg harg)

/-- C2 (corrected): the update validator processes assignments in list order
and reports the first failing one, so the primary-key rejection fires only
when every earlier assignment passes all its checks; within its own
assignment the primary-key test precedes the attribute-existence and value
checks.  (The original claim — that a primary-key assignment always yields
the immutable-key error even when an earlier assignment is malformed —
fails; see the counterexample.) -/
theorem claim2_pk_update_rejected (db : DB) (t : String) (data : List String)
    (i : Nat)
    (h2 : ¬ data.length < 2)
    (hex : data.getD 0 "" ∈ selectCol db t (updatePk t))
    (hprev : ∀ j, j < i →
      assignmentCheck db t (updatePk t) (tableInfo t)
        ((data.drop 1).getD j "") = none)
    (hi : i < (data.drop 1).length)
    (hsplit : (pySplitEq (pyStrip ((data.drop 1).getD i ""))).length = 2)
    (hname : (pySplitEq (pyStrip ((data.drop 1).getD i ""))).getD 0 ""
      = updatePk t) :
    validateUpdateData data t db = some .ImmutableKeyError := by
  have hA : assignmentCheck db t (updatePk t) (tableInfo t)
      ((data.drop 1).getD i "") = some .ImmutableKeyError := by
    rw [assignmentCheck]
    simp only [hsplit, hname]
    simp
  rw [validateUpdateData, if_neg h2, if_neg (not_not_intro hex)]
  exact validateUpdateArgs_first db t (updatePk t) (tableInfo t)
    .ImmutableKeyError i (data.drop 1) hi hprev hA

theorem claim2_counterexample :
    validateUpdateData ["1", "oops", "staff_id=9"] "pilot" db0
        = some (VErr.MalformedAssignment "oops") ∧
    some (VErr.MalformedAssignment "oops") ≠ some VErr.ImmutableKeyError := by
  constructor
  · decide
  · decide

theorem claim2_witness :
    validateUpdateData ["1", "last_name=smith", "staff_id=9"] "pilot" db0
        = some VErr.ImmutableKeyError :=
  claim2_pk_update_rejected db0 "pilot" ["1", "last_name=smith", "staff_id=9"]
    1 (by decide) (by decide)
    (by
      intro j hj
      have hj0 : j = 0 := Nat.lt_one_iff.1 hj
      subst hj0
      decide)
    (by decide) (by decide) (by decide)

/-- C3 (code bug): the batch is fully validated before any write (both rows
of this batch pass validation against the pre-batch state), yet batch
insert is not all-or-nothing.  Two rows sharing the same fresh primary-key
value pass validation; the engine inserts the first and rejects the second,
and since the code never rolls back, the first row stays in the open
transaction and is committed by the next successful operation — a proper
subset of the batch ends up persisted. -/
theorem claim3_batch_not_atomic :
    ([[some "5", some "a", some "b"], [some "5", some "c", some "d"]].findSome?
        (fun r => validateData r "pilot" s0.current) = none) ∧
    ((insertOp s0 "pilot"
        [[some "5", some "a", some "b"], [some "5", some "c", some "d"]]).2.1
      = some VErr.ConstraintViolation) ∧
    ((insertOp (insertOp s0 "pilot"
          [[some "5", some "a", some "b"], [some "5", some "c", some "d"]]).1
        "pilot" [[some "6", some "x", some "y"]]).2.1 = none) ∧
    ([some "5", some "a", some "b"] ∈
      (insertOp (insertOp s0 "pilot"
          [[some "5", some "a", some "b"], [some "5", some "c", some "d"]]).1
        "pilot" [[some "6", some "x", some "y"]]).1.committed.pilot) ∧
    ([some "5", some "c", some "d"] ∉
      (insertOp (insertOp s0 "pilot"
          [[some "5", some "a", some "b"], [some "5", some "c", some "d"]]).1
        "pilot" [[some "6", some "x", some "y"]]).1.committed.pilot) := by
  refine ⟨by decide, by decide, by decide, by decide, by decide⟩

/-- C9: a delete request whose identifier matches no current primary-key
value of the table is rejected by `validateValueInPK` before any DELETE
statement is issued (empty statement list) and leaves the session — hence
all three tables — unchanged. -/
theorem claim9_delete_unknown_id (s : Session) (t v : String)
    (h : ∀ r ∈ getTable s.current t,
      whereEq (r.getD (colIndexD t (getPKName t)) none) v = false) :
    deleteOp s t v = (s, some (.UnknownEntity v), []) := by
  have hval : validateValueInPK s.current t (getPKName t) v
      = some (.UnknownEntity v) := by
    rw [validateValueInPK]
    rw [if_neg ?_]
    intro hany
    rw [List.any_eq_true] at hany
    obtain ⟨r, hr, hw⟩ := hany
    rw [h r hr] at hw
    cases hw
  rw [deleteOp, hval]

theorem claim9_witness :
    deleteOp s0 "aircraft" "99" = (s0, some (VErr.UnknownEntity "99"), []) :=
  claim9_delete_unknown_id s0 "aircraft" "99" (by decide)

/-- A state with one flight (aircraft 1, pilots 1 and 2) over the seeded
pilot and aircraft tables, used as a concrete scenario. -/
def dbF : DB :=
  ⟨[[some "BA1", some "LHR", some "JFK", some "2022-01-01",
     some "1", some "1", some "2"]],
   aircraftSeed, pilotSeed⟩

/-- Session holding `dbF`, everything committed. -/
def sF : Session := ⟨dbF, dbF⟩

/-- C5: deleting a row that is still referenced by another table's foreign
key fails with the referenced-by error, issues only the one DELETE
statement which the engine rejects atomically, leaves the session exactly
unchanged, and the target row remains readable (the primary-key probe still
finds it). -/
theorem claim5_referenced_delete_atomic (s : Session) (t v : String)
    (hex : validateValueInPK s.current t (getPKName t) v = none)
    (href : isReferenced s.current t v = true) :
    deleteOp s t v = (s, some .ReferencedByOtherEntity,
      [⟨deleteQuery t (getPKName t), [some v]⟩]) ∧
    validateValueInPK (deleteOp s t v).1.current t (getPKName t) v = none := by
  have h1 : deleteOp s t v = (s, some .ReferencedByOtherEntity,
      [⟨deleteQuery t (getPKName t), [some v]⟩]) := by
    rw [deleteOp, hex]
    simp only [href, if_pos]
  exact ⟨h1, by rw [h1]; exact hex⟩

theorem claim5_witness :
    deleteOp sF "aircraft" "1" = (sF, some VErr.ReferencedByOtherEntity,
      [⟨deleteQuery "aircraft" (getPKName "aircraft"), [some "1"]⟩]) ∧
    validateValueInPK (deleteOp sF "aircraft" "1").1.current "aircraft"
      (getPKName "aircraft") "1" = none :=
  claim5_referenced_delete_atomic sF "aircraft" "1" (by decide) (by decide)

/-- If a table's first declared column is a nullable primary-key column and
the row's first cell holds a non-empty value already among that column's
current values, `validateData` reports the duplicate-key error for it. -/
theorem validateData_dup_head (s : Session) (t : String) (row : Row)
    (v : String) (a0 : Attr) (rest : List Attr)
    (hinfo : tableInfo t = a0 :: rest)
    (hnn : a0.notnull = false) (hpk : a0.pk = true)
    (hlen : row.length = (tableInfo t).length)
    (hv : row.getD 0 none = some v) (hne : v ≠ "")
    (hdup : v ∈ selectCol s.current t a0.name) :
    validateData row t s.current = some (.DuplicateKey a0.name) := by
  cases row with
  | nil =>
      rw [hinfo] at hlen
      simp at hlen
  | cons c cs =>
      rw [List.getD_cons_zero] at hv
      subst hv
      have hnev : isEmptyVal (some v) = false := by simp [isEmptyVal, hne]
      have hfield : validateField (some v) a0 t s.current
          = some (.DuplicateKey a0.name) := by
        rw [validateField]
        rw [if_neg (by simp [hnn])]
        rw [if_neg (by simp [hnev])]
        rw [validateFieldNonNull]
        exact if_pos ⟨hpk, hdup⟩
      rw [validateData, if_neg (by simp [hlen]), hinfo]
      simp [validateFields, hfield]

/-- C6: inserting a row (of the right arity) whose primary-key value — the
first declared column of each of the three tables — is non-empty and
already among the table's current primary-key values fails validation with
the duplicate-key error on the primary-key column, and the insert leaves
the session unchanged without issuing any statement. -/
theorem claim6_duplicate_pk_insert (s : Session) (t : String) (row : Row)
    (v : String)
    (ht : t ∈ tableNames)
    (hlen : row.length = (tableInfo t).length)
    (hv : row.getD 0 none = some v) (hne : v ≠ "")
    (hdup : v ∈ selectCol s.current t (getPKName t)) :
    validateData row t s.current = some (.DuplicateKey (getPKName t)) ∧
    insertOp s t [row] = (s, some (.DuplicateKey (getPKName t)), []) := by
  have ht3 : t = "flight" ∨ t = "aircraft" ∨ t = "pilot" := by
    simpa [tableNames] using ht
  have hmain : validateData row t s.current
      = some (.DuplicateKey (getPKName t)) := by
    rcases ht3 with h | h | h <;> subst h
    · have hg : getPKName "flight" = "flight_id" := by decide
      rw [hg] at hdup ⊢
      exact validateData_dup_head s "flight" row v
        ⟨0, "flight_id", "TEXT", false, none, true⟩ _ rfl rfl rfl
        hlen hv hne hdup
    · have hg : getPKName "aircraft" = "aircraft_id" := by decide
      rw [hg] at hdup ⊢
      exact validateData_dup_head s "aircraft" row v
        ⟨0, "aircraft_id", "INTEGER", false, none, true⟩ _ rfl rfl rfl
        hlen hv hne hdup
    · have hg : getPKName "pilot" = "staff_id" := by decide
      rw [hg] at hdup ⊢
      exact validateData_dup_head s "pilot" row v
        ⟨0, "staff_id", "INTEGER", false, none, true⟩ _ rfl rfl rfl
        hlen hv hne hdup
  have hfind : [row].findSome? (fun r => validateData r t s.current)
      = some (.DuplicateKey (getPKName t)) := by
    simp [List.findSome?, hmain]
  refine ⟨hmain, ?_⟩
  rw [insertOp, hfind]

/-- Session after successfully inserting pilot `("3","smith","john")` into
the seeded state. -/
def s6 : Session :=
  (insertOp s0 "pilot" [[some "3", some "smith", some "john"]]).1

theorem claim6_witness :
    ((insertOp s0 "pilot" [[some "3", some "smith", some "john"]]).2.1 = none) ∧
    (validateData [some "3", some "jones", some "anne"] "pilot" s6.current
        = some (.DuplicateKey (getPKName "pilot")) ∧
      insertOp s6 "pilot" [[some "3", some "jones", some "anne"]]
        = (s6, some (.DuplicateKey (getPKName "pilot")), [])) ∧
    (searchRows s6.current ⟨["staff_id"], "pilot"⟩ ["3"]
        = [[some "3", some "smith", some "john"]]) :=
  ⟨by decide,
   claim6_duplicate_pk_insert s6 "pilot" [some "3", some "jones", some "anne"]
     "3" (by decide) (by decide) (by decide) (by decide) (by decide),
   by decide⟩

/-- C7: on any state, updating an existing flight with the single assignment
`pilot_2=` (explicitly empty value) passes validation, binds the empty
value as NULL, sets column `pilot_2` (index 6) of every row matching the
identifier to NULL while leaving its other columns and all non-matching
rows untouched, and leaves the other two tables unchanged. -/
theorem claim7_pilot2_empty_update (s : Session) (fid : String)
    (hex : fid ∈ selectCol s.current "flight" "flight_id") :
    ((updateOp s "flight" [fid, "pilot_2="]).2.1 = none) ∧
    ((updateOp s "flight" [fid, "pilot_2="]).1.current.flight =
      s.current.flight.map (fun r =>
        if whereEq (r.getD 0 none) fid then r.set 6 none else r)) ∧
    ((updateOp s "flight" [fid, "pilot_2="]).1.current.aircraft
        = s.current.aircraft) ∧
    ((updateOp s "flight" [fid, "pilot_2="]).1.current.pilot
        = s.current.pilot) ∧
    (∀ i : Nat,
      (whereEq ((s.current.flight.getD i []).getD 0 none) fid = true →
        (((updateOp s "flight" [fid, "pilot_2="]).1.current.flight.getD i []).getD 6 none
            = none) ∧
        ∀ j : Nat, j ≠ 6 →
          ((updateOp s "flight" [fid, "pilot_2="]).1.current.flight.getD i []).getD j none
            = (s.current.flight.getD i []).getD j none) ∧
      (whereEq ((s.current.flight.getD i []).getD 0 none) fid = false →
        (updateOp s "flight" [fid, "pilot_2="]).1.current.flight.getD i []
          = s.current.flight.getD i [])) := by
  have hc : assignmentCheck s.current "flight" "flight_id"
      (tableInfo "flight") "pilot_2="
      = validateField (some "") ⟨6, "pilot_2", "INTEGER", false, none, false⟩
          "flight" s.current := rfl
  have hf : validateField (some "")
      ⟨6, "pilot_2", "INTEGER", false, none, false⟩ "flight" s.current
      = none := by
    rw [validateField, if_neg (by decide), if_pos (by decide)]
  have hval : validateUpdateData [fid, "pilot_2="] "flight" s.current
      = none := by
    rw [validateUpdateData, if_neg (by simp)]
    show (if fid ∉ selectCol s.current "flight" "flight_id" then
        some (VErr.UnknownEntity fid)
      else validateUpdateArgs s.current "flight" "flight_id"
        (tableInfo "flight") ["pilot_2="]) = none
    rw [if_neg (not_not_intro hex)]
    simp only [validateUpdateArgs, hc, hf]
  have hop : updateOp s "flight" [fid, "pilot_2="] =
      (⟨{ s.current with flight := s.current.flight.map (fun r =>
            if whereEq (r.getD 0 none) fid then r.set 6 none else r) },
         { s.current with flight := s.current.flight.map (fun r =>
            if whereEq (r.getD 0 none) fid then r.set 6 none else r) }⟩,
       none,
       [⟨updateQuery "flight" ["pilot_2=?"], [none, some fid]⟩]) := by
    rw [updateOp, hval]
    rfl
  refine ⟨by rw [hop], by rw [hop], by rw [hop], by rw [hop], ?_⟩
  intro i
  have hmapi : (updateOp s "flight" [fid, "pilot_2="]).1.current.flight.getD i []
      = (Option.map (fun r =>
          if whereEq (r.getD 0 none) fid then r.set 6 none else r)
            s.current.flight[i]?).getD [] := by
    rw [hop]
    show (s.current.flight.map (fun r =>
        if whereEq (r.getD 0 none) fid then r.set 6 none else r)).getD i [] = _
    rw [List.getD_eq_getElem?_getD, List.getElem?_map]
  have hgeti : s.current.flight.getD i [] = s.current.flight[i]?.getD [] :=
    List.getD_eq_getElem?_getD _ _ _
  rw [hgeti]
  cases hcell : s.current.flight[i]? with
  | none =>
      rw [hcell] at hmapi
      constructor
      · intro hw
        rw [show whereEq ((Option.getD (none : Option Row) []).getD 0 none) fid
            = false from rfl] at hw
        cases hw
      · intro _
        rw [hmapi]
        rfl
  | some r =>
      rw [hcell] at hmapi
      have hmapi2 : (updateOp s "flight" [fid, "pilot_2="]).1.current.flight.getD i []
          = if whereEq (r.getD 0 none) fid then r.set 6 none else r := hmapi
      rw [show Option.getD (some r) ([] : Row) = r from rfl]
      constructor
      · intro hw
        rw [hmapi2, if_pos hw]
        constructor
        · rw [List.getD_eq_getElem?_getD, List.getElem?_set, if_pos rfl]
          split <;> rfl
        · intro j hj
          rw [List.getD_eq_getElem?_getD,
            List.getElem?_set_ne (fun he => hj he.symm),
            ← List.getD_eq_getElem?_getD]
      · intro hw
        rw [hmapi2,
          if_neg (fun hcontra => absurd (hw.symm.trans hcontra) Bool.false_ne_true)]

theorem claim7_witness :
    ((updateOp sF "flight" ["BA1", "pilot_2="]).2.1 = none) ∧
    ((updateOp sF "flight" ["BA1", "pilot_2="]).1.current.flight =
      [[some "BA1", some "LHR", some "JFK", some "2022-01-01",
        some "1", some "1", none]]) :=
  ⟨(claim7_pilot2_empty_update sF "BA1" (by decide)).1, by decide⟩

theorem insertOp_stmts (s : Session) (t : String) (rows : List Row)
    (h : rows.findSome? (fun r => validateData r t s.current) = none) :
    (insertOp s t rows).2.2 = rows.map (fun r => ⟨insertQuery t, r⟩) := by
  rw [insertOp, h]
  rcases hE : engineExecuteMany s.current t rows with ⟨db', b⟩
  cases b <;> rfl

theorem updateOp_stmts (s : Session) (t : String) (data : List String)
    (h : validateUpdateData data t s.current = none) :
    (updateOp s t data).2.2
      = [⟨updateQuery t ((data.drop 1).map updateArgCond),
          (data.drop 1).map updateArgParam ++ [some (data.getD 0 "")]⟩] := by
  rw [updateOp, h]

theorem deleteOp_stmts (s : Session) (t v : String)
    (h : validateValueInPK s.current t (getPKName t) v = none) :
    (deleteOp s t v).2.2 = [⟨deleteQuery t (getPKName t), [some v]⟩] := by
  rw [deleteOp, h]
  by_cases href : isReferenced s.current t v = true
  · rw [if_pos href]
  · rw [if_neg href]

/-- The SET-clause fragments built from well-formed `name=value` assignments
depend only on the names, never on the values. -/
theorem updateArgCond_names (ns vs : List String)
    (hlen : vs.length = ns.length)
    (hns : ∀ n ∈ ns, '=' ∉ n.data) (hvs : ∀ v ∈ vs, '=' ∉ v.data) :
    ((ns.zip vs).map (fun p => p.1 ++ "=" ++ p.2)).map updateArgCond
      = ns.map (fun n => pyStrip n ++ "=?") := by
  rw [List.map_map]
  calc (ns.zip vs).map (updateArgCond ∘ fun p => p.1 ++ "=" ++ p.2)
      = (ns.zip vs).map (fun p => pyStrip p.1 ++ "=?") := by
        refine List.map_congr_left (fun p hp => ?_)
        obtain ⟨hn, hv⟩ := List.of_mem_zip hp
        show updateArgCond (p.1 ++ "=" ++ p.2) = pyStrip p.1 ++ "=?"
        rw [updateArgCond, pySplitEq_sep p.1 p.2 (hns p.1 hn) (hvs p.2 hv)]
        rfl
    _ = ((ns.zip vs).map Prod.fst).map (fun n => pyStrip n ++ "=?") := by
        rw [List.map_map]
        rfl
    _ = ns.map (fun n => pyStrip n ++ "=?") := by
        rw [List.map_fst_zip ns vs (le_of_eq hlen.symm)]

/-- C8: the SQL text handed to the engine is a function of the table /
filter choice and the Catalog-validated assignment names only; user values
influence only the bound parameters.  Two runs of the same operation
differing only in the user-supplied values produce identical SQL text, for
insert, update, delete and search. -/
theorem claim8_sql_value_independent :
    (∀ (s1 s2 : Session) (t : String) (rows1 rows2 : List Row),
      rows1.findSome? (fun r => validateData r t s1.current) = none →
      rows2.findSome? (fun r => validateData r t s2.current) = none →
      rows1.length = rows2.length →
      ((insertOp s1 t rows1).2.2).map Stmt.sql
        = ((insertOp s2 t rows2).2.2).map Stmt.sql) ∧
    (∀ (s1 s2 : Session) (t pk1 pk2 : String) (ns vs1 vs2 : List String),
      vs1.length = ns.length → vs2.length = ns.length →
      (∀ n ∈ ns, '=' ∉ n.data) →
      (∀ v ∈ vs1, '=' ∉ v.data) → (∀ v ∈ vs2, '=' ∉ v.data) →
      validateUpdateData
        (pk1 :: (ns.zip vs1).map (fun p => p.1 ++ "=" ++ p.2)) t s1.current
        = none →
      validateUpdateData
        (pk2 :: (ns.zip vs2).map (fun p => p.1 ++ "=" ++ p.2)) t s2.current
        = none →
      ((updateOp s1 t
          (pk1 :: (ns.zip vs1).map (fun p => p.1 ++ "=" ++ p.2))).2.2).map Stmt.sql
        = ((updateOp s2 t
          (pk2 :: (ns.zip vs2).map (fun p => p.1 ++ "=" ++ p.2))).2.2).map Stmt.sql) ∧
    (∀ (s1 s2 : Session) (t v1 v2 : String),
      validateValueInPK s1.current t (getPKName t) v1 = none →
      validateValueInPK s2.current t (getPKName t) v2 = none →
      ((deleteOp s1 t v1).2.2).map Stmt.sql
        = ((deleteOp s2 t v2).2.2).map Stmt.sql) ∧
    (∀ (db1 db2 : DB) (spec : SearchSpec) (vs1 vs2 : List String),
      ((searchOp db1 spec vs1).2).map Stmt.sql
        = ((searchOp db2 spec vs2).2).map Stmt.sql) := by
  refine ⟨?_, ?_, ?_, ?_⟩
  · intro s1 s2 t rows1 rows2 h1 h2 hlen
    rw [insertOp_stmts s1 t rows1 h1, insertOp_stmts s2 t rows2 h2,
      List.map_map, List.map_map]
    show rows1.map (fun _ => insertQuery t) = rows2.map (fun _ => insertQuery t)
    rw [List.map_const', List.map_const', hlen]
  · intro s1 s2 t pk1 pk2 ns vs1 vs2 hl1 hl2 hns hv1 hv2 hval1 hval2
    rw [updateOp_stmts _ _ _ hval1, updateOp_stmts _ _ _ hval2]
    show [updateQuery t _] = [updateQuery t _]
    rw [List.drop_one, List.drop_one]
    show [updateQuery t
        (((ns.zip vs1).map (fun p => p.1 ++ "=" ++ p.2)).map updateArgCond)]
      = [updateQuery t
        (((ns.zip vs2).map (fun p => p.1 ++ "=" ++ p.2)).map updateArgCond)]
    rw [updateArgCond_names ns vs1 hl1 hns hv1,
      updateArgCond_names ns vs2 hl2 hns hv2]
  · intro s1 s2 t v1 v2 h1 h2
    rw [deleteOp_stmts s1 t v1 h1, deleteOp_stmts s2 t v2 h2]
    rfl
  · intro db1 db2 spec vs1 vs2
    rfl

theorem claim8_witness :
    ((updateOp sF "flight"
        ("BA1" :: ((["pilot_1"].zip ["1"]).map (fun p => p.1 ++ "=" ++ p.2)))).2.2).map
          Stmt.sql
      = ((updateOp sF "flight"
        ("BA1" :: ((["pilot_1"].zip ["2"]).map (fun p => p.1 ++ "=" ++ p.2)))).2.2).map
          Stmt.sql :=
  claim8_sql_value_independent.2.1 sF sF "flight" "BA1" "BA1"
    ["pilot_1"] ["1"] ["2"] rfl rfl
    (by decide) (by decide) (by decide) (by decide) (by decide)

theorem not_mem_eq_of_mem_pySplitEq (s p : String) (hp : p ∈ pySplitEq s) :
    '=' ∉ p.data := by
  rw [pySplitEq] at hp
  obtain ⟨l, hl, he⟩ := List.mem_map.1 hp
  cases he
  exact not_mem_of_mem_splitOnChar '=' s.data l hl

theorem not_mem_pyStrip (c : Char) (s : String) (h : c ∉ s.data) :
    c ∉ (pyStrip s).data :=
  fun hc => h (mem_pyStrip_subset s c hc)

/-- C10: every update assignment string must split on the separator into
exactly a name and a value: an assignment containing no or more than one
separator character makes the whole update fail validation, so the
operation leaves the session untouched and issues no statement; and the
value a successful update binds for an assignment (the second split piece,
stripped) can never contain the separator character. -/
theorem claim10_assignment_split :
    (∀ (s : Session) (t : String) (data : List String) (arg : String),
      arg ∈ data.drop 1 → arg.data.count '=' ≠ 1 →
      (updateOp s t data).2.1 ≠ none ∧ (updateOp s t data).1 = s ∧
        (updateOp s t data).2.2 = []) ∧
    (∀ (arg w : String), updateArgParam arg = some w → '=' ∉ w.data) := by
  constructor
  · intro s t data arg harg hcount
    have hcond : (pySplitEq (pyStrip arg)).length ≠ 2 := by
      rw [pySplitEq_length, count_pyStrip '=' (by decide) arg]
      omega
    have hAs : assignmentCheck s.current t (updatePk t) (tableInfo t) arg
        = some (.MalformedAssignment arg) := by
      simp only [assignmentCheck]
      rw [if_pos hcond]
    obtain ⟨e, he⟩ : ∃ e, validateUpdateData data t s.current = some e := by
      cases hv : validateUpdateData data t s.current with
      | some e => exact ⟨e, rfl⟩
      | none =>
          exfalso
          have hargsnone : validateUpdateArgs s.current t (updatePk t)
              (tableInfo t) (data.drop 1) = none := by
            rw [validateUpdateData] at hv
            by_cases h2 : data.length < 2
            · rw [if_pos h2] at hv; cases hv
            · rw [if_neg h2] at hv
              by_cases hex : data.getD 0 "" ∉ selectCol s.current t (updatePk t)
              · rw [if_pos hex] at hv; cases hv
              · rw [if_neg hex] at hv; exact hv
          have := validateUpdateArgs_all_none s.current t (updatePk t)
            (tableInfo t) (data.drop 1) hargsnone arg harg
          rw [hAs] at this
          cases this
    rw [updateOp, he]
    refine ⟨?_, rfl, rfl⟩
    intro hc
    cases hc
  · intro arg w hw
    rw [updateArgParam] at hw
    by_cases hne : pyStrip ((pySplitEq arg).getD 1 "") ≠ ""
    · rw [if_pos hne] at hw
      have hw2 : pyStrip ((pySplitEq arg).getD 1 "") = w := Option.some.inj hw
      by_cases hlt : 1 < (pySplitEq arg).length
      · have hmem : (pySplitEq arg).getD 1 "" ∈ pySplitEq arg := by
          rw [List.getD_eq_getElem (pySplitEq arg) "" hlt]
          exact List.getElem_mem hlt
        rw [← hw2]
        exact not_mem_pyStrip '=' _ (not_mem_eq_of_mem_pySplitEq arg _ hmem)
      · have hd : (pySplitEq arg).getD 1 "" = "" :=
          List.getD_eq_default _ _ (by omega)
        rw [hd] at hw2
        rw [← hw2]
        intro hc
        cases hc
    · rw [if_neg hne] at hw
      cases hw

theorem claim10_witness :
    (updateOp s0 "pilot" ["1", "oops"]).2.1 ≠ none ∧
    (updateOp s0 "pilot" ["1", "oops"]).1 = s0 ∧
    (updateOp s0 "pilot" ["1", "oops"]).2.2 = [] :=
  claim10_assignment_split.1 s0 "pilot" ["1", "oops"] "oops"
    (by decide) (by decide)
